import Mathlib

/-!
Shallow embedding of `src/tabla/tabla.py` (the `tabla` package): a LaTeX
table generator.  Pandas DataFrames are modelled as ordered lists of named,
dtyped columns; Python scalar values are modelled by `PyVal`, which records
the strings Python's `str()` / `format()` would produce for them.  Every
definition mirrors the corresponding Python function; theorems about the
frozen claims follow the definitions.
-/

/-- Python truthiness of an `Optional[str]`: `None` and `""` are falsy. -/
def truthyOpt : Option String → Bool
  | none => false
  | some s => !s.isEmpty

/-- Python string repetition `s * n` (used for the `'c ' * len(columns)` column spec). -/
def strRepeat (s : String) (n : Nat) : String :=
  String.join (List.replicate n s)

/-- Substring test on character lists (scanning helper for theorems). -/
def listContainsSub : List Char → List Char → Bool
  | [], pat => pat.isEmpty
  | c :: cs, pat => List.isPrefixOf pat (c :: cs) || listContainsSub cs pat

/-- Predicate `strContains s pat` holds when `pat` occurs as a substring of `s`. -/
def strContains (s pat : String) : Bool :=
  listContainsSub s.data pat.data

/-- Source: `TableColumn = namedtuple("TableColumn", ["name", "unit", "fmt", "print_name"])`
(tabla.py line 11).  `fmt` is an optional format pattern; `none` and `some ""`
are both falsy in Python conditionals. -/
structure TableColumn where
  name : String
  unit : String
  fmt : Option String
  print_name : String
deriving DecidableEq

/-- A Python scalar held in a DataFrame cell.  Since the renderer only ever
consumes the strings Python would produce from a value, a value is modelled
by those strings: `pyFloat sDefault sFmt` is a numeric scalar whose `str()`
is `sDefault` and whose `fmt.format(v)` is `sFmt fmt`; `pyObj s` is an
object-dtype cell whose `str()` is `s` (a `str` cell is `pyObj` of itself);
`pyNone` is Python's `None` (`str(None) = "None"`); `pyTimestamp sIso sStrf`
is a timestamp whose `isoformat(sep=" ")` is `sIso` and whose
`strftime(fmt)` is `sStrf fmt`. -/
inductive PyVal
  | pyFloat (sDefault : String) (sFmt : String → String)
  | pyObj (s : String)
  | pyNone
  | pyTimestamp (sIso : String) (sStrf : String → String)

/-- Python `str(v)` on a cell value. -/
def pyStr : PyVal → String
  | .pyFloat s _ => s
  | .pyObj s => s
  | .pyNone => "None"
  | .pyTimestamp s _ => s

/-- The dtype of a pandas Series, as far as `string_dataframe` dispatches on it:
`np.datetime64`, `object`, or anything else (numeric). -/
inductive Dtype
  | dt64
  | objD
  | numD
deriving DecidableEq

/-- One named column of a DataFrame with its dtype and cell values. -/
structure DCol where
  name : String
  dtype : Dtype
  vals : List PyVal

/-- A pandas DataFrame: an ordered list of named columns, all of length `nrows`. -/
structure DFrame where
  cols : List DCol
  nrows : Nat

/-- Python `df[name]`: look up a column by name (first match, as pandas does). -/
def lookupCol (df : DFrame) (n : String) : Option DCol :=
  df.cols.find? (fun c => c.name == n)

/-- Python `df[name] = series` for an existing column: replace the column's values
in place (the new values are strings, hence dtype `object`), preserving the
column order of the frame. -/
def setCol (df : DFrame) (n : String) (vals : List PyVal) : DFrame :=
  ⟨df.cols.map (fun c => if c.name = n then ⟨c.name, .objD, vals⟩ else c), df.nrows⟩

/-- The exception raised by `string_dataframe` when a descriptor names a column
absent from the DataFrame: `df[column.name]` raises a (pandas) `KeyError`,
the spec's MissingColumnError. -/
inductive TablaError
  | missingColumn (name : String)
deriving DecidableEq

/-- Source: `HLINE = "\\hline\n"` (tabla.py line 8). -/
def HLINE : String := "\\hline\n"

/-- Source: `EOL = "\\\\ \n"` (tabla.py line 9): the row terminator, a double
backslash, a space and a line break. -/
def EOL : String := "\\\\ \n"

/-- The body of the `for` loop of `string_dataframe` (tabla.py lines 186-202)
for one descriptor `column` whose series in `df` is `c`: dtype-dispatched
string conversion, followed by the `replace("nan", empty_str)` post-pass;
the resulting cells are `str` objects. -/
def format_series (column : TableColumn) (c : DCol) (empty_str : String) : List PyVal :=
  let strs : List String :=
    match c.dtype with
    | .dt64 =>
      if truthyOpt column.fmt then
        c.vals.map (fun v => match v with
          | .pyTimestamp _ f => f (column.fmt.getD "")
          | v => pyStr v)
      else
        c.vals.map pyStr
    | .objD => c.vals.map pyStr
    | .numD =>
      if truthyOpt column.fmt then
        c.vals.map (fun v => match v with
          | .pyFloat _ f => f (column.fmt.getD "")
          | v => pyStr v)
      else
        c.vals.map pyStr
  (strs.map (fun s => if s = "nan" then empty_str else s)).map PyVal.pyObj

/-- The `for i, column in enumerate(columns)` loop of `string_dataframe`
(tabla.py lines 185-202), as a recursion over the descriptor list: each
iteration reads `df[column.name]` from the ORIGINAL frame (raising on a
missing name) and writes the converted column into the accumulator. -/
def string_dataframe_go (df : DFrame) (columns : List TableColumn) (empty_str : String)
    (df_str : DFrame) : Except TablaError DFrame :=
  match columns with
  | [] => .ok df_str
  | column :: rest =>
    match lookupCol df column.name with
    | none => .error (.missingColumn column.name)
    | some c =>
      string_dataframe_go df rest empty_str (setCol df_str column.name (format_series column c empty_str))

/-- The Table record: the attributes `__init__` assigns (tabla.py lines 67-81),
in source order. -/
structure Table where
  name : String
  columns : List TableColumn
  header_units : Bool
  df : DFrame
  df_str : DFrame
  adjustwidth : Bool
  title : Option String
  caption : Option String
  extra_row_height : Int
  label : Option String
  notes : Option String
  dpi : Int
  empty_str : String
  centering : Bool
  tiny : Bool

namespace Table

/-- Method `Table.string_dataframe(df, columns, empty_str="-")` (tabla.py lines 162-204):
produce a new DataFrame with every descriptor-named column converted to
strings, `"nan"` cells replaced by `empty_str`.  `df_str = df.copy()` starts
the accumulator at `df` itself. -/
def string_dataframe (df : DFrame) (columns : List TableColumn) (empty_str : String) :
    Except TablaError DFrame :=
  string_dataframe_go df columns empty_str df

/-- Constructor `Table.__init__` (tabla.py lines 50-81).  The Python signature's defaults are
`extra_row_height=0, dpi=300, empty_str="-", title=None, caption=None,
label=None, notes=None, header_units=True, centering=True, tiny=False,
adjustwidth=False`.  Note line 71 computes
`Table.string_dataframe(df, columns)` WITHOUT passing `empty_str`, so the
conversion always runs with the default placeholder `"-"`. -/
def init (name : String) (columns : List TableColumn) (df : DFrame)
    (extra_row_height : Int) (dpi : Int) (empty_str : String)
    (title : Option String) (caption : Option String)
    (label : Option String) (notes : Option String)
    (header_units : Bool) (centering : Bool) (tiny : Bool) (adjustwidth : Bool) :
    Except TablaError Table :=
  (string_dataframe df columns "-").map (fun df_str =>
    ⟨name, columns, header_units, df, df_str, adjustwidth, title, caption,
      extra_row_height, label, notes, dpi, empty_str, centering, tiny⟩)

/-- Method `Table._creat_row(elems, bold=False)` (tabla.py lines 206-225):
`" ".join(["&".join([fmt] * len(elems)).format(*elems), EOL])`.  Joining
`len(elems)` copies of the cell template with `"&"` and then substituting the
elements is the same as mapping the template over the elements and joining
with `"&"`; the outer `" ".join` of the two pieces is `row ++ " " ++ EOL`. -/
def creat_row (elems : List String) (bold : Bool) : String :=
  (String.intercalate "&"
      (elems.map (fun e =>
        if bold then " \\textbf\x7b " ++ (e ++ " \x7d ") else " " ++ (e ++ " ")))
    ++ " ") ++ EOL

/-- Source: `head += "\\tiny\n"` (tabla.py line 110). -/
def sizeMarker : String := "\\tiny\n"

/-- Source: `head += "\\centering\n"` (tabla.py line 113). -/
def centeringMarker : String := "\\centering\n"

/-- Source: `head += "\\begin{adjustwidth}{-2.25in}{0in}\n"` (tabla.py line 107). -/
def adjOpenMarker : String := "\\begin\x7badjustwidth\x7d\x7b-2.25in\x7d\x7b0in\x7d\n"

/-- Source: `footer += "\\end{{adjustwidth}} \n"` (tabla.py line 156): a plain (non-f)
string, so the doubled braces are emitted literally. -/
def adjCloseMarker : String := "\\end\x7b\x7badjustwidth\x7d\x7d \n"

/-- Source: `footer += "\\end{{table}} \n"` (tabla.py line 158): a plain (non-f)
string, so the doubled braces are emitted literally. -/
def tableCloseMarker : String := "\\end\x7b\x7btable\x7d\x7d \n"

/-- Source: `footer = "\\end{{tabular}} \n"` (tabla.py line 147): a plain (non-f)
string, so the doubled braces are emitted literally. -/
def tabularCloseMarker : String := "\\end\x7b\x7btabular\x7d\x7d \n"

/-- The caption segment (tabla.py lines 115-122): `cap_str = "\caption{"`,
then the title and caption texts are appended when truthy.  Line 121
(`cap_str + "}\n"`) is an expression statement whose result is discarded, so
no closing brace is ever appended. -/
def capSeg (t : Table) : String :=
  "\\caption\x7b" ++
    ((if truthyOpt t.title then t.title.getD "" else "") ++
     (if truthyOpt t.caption then t.caption.getD "" else ""))

/-- Source: `head += f"\\setlength\\extrarowheight{{ {str(self.extra_row_height)} pt}}\n"`
(tabla.py line 125). -/
def erhSeg (t : Table) : String :=
  "\\setlength\\extrarowheight\x7b " ++ (toString t.extra_row_height ++ " pt\x7d\n")

/-- Source: `head += f"\\begin{{tabular}}{{  {'c ' * len(self.columns)} }}\n"`
(tabla.py line 127). -/
def tabularSeg (t : Table) : String :=
  "\\begin\x7btabular\x7d\x7b  " ++ (strRepeat "c " t.columns.length ++ " \x7d\n")

/-- Source: `footer += f"\\begin{{flushleft}} {self.notes} \n \\end{{flushleft}} \n"`
(tabla.py line 150): this one IS an f-string, so its doubled braces are
escapes and single braces are emitted. -/
def notesSeg (t : Table) : String :=
  "\\begin\x7bflushleft\x7d " ++ (t.notes.getD "" ++ " \n \\end\x7bflushleft\x7d \n")

/-- Source: `footer += r"\label{" + self.label + "}\n"` (tabla.py line 153). -/
def labelSeg (t : Table) : String :=
  "\\label\x7b" ++ (t.label.getD "" ++ "\x7d\n")

/-- The successive pieces `_create_header` (tabla.py lines 101-137) appends to
`head`, one list entry per `+=` (the conditional ones contribute nothing when
their flag is off). -/
def headerSegs (t : Table) : List String :=
  ["\\begin\x7btable\x7d[!ht]\n"]
  ++ (if t.adjustwidth then [adjOpenMarker] else [])
  ++ (if t.tiny then [sizeMarker] else [])
  ++ (if t.centering then [centeringMarker] else [])
  ++ (if truthyOpt t.title || truthyOpt t.caption then [capSeg t] else [])
  ++ (if t.extra_row_height ≠ 0 then [erhSeg t] else [])
  ++ [tabularSeg t, HLINE, creat_row (t.columns.map TableColumn.print_name) true]
  ++ (if t.header_units then [creat_row (t.columns.map TableColumn.unit) false] else [])
  ++ [HLINE]

/-- Method `Table._create_header` (tabla.py lines 101-137): the concatenation of the
appended pieces. -/
def _create_header (t : Table) : String :=
  String.join (headerSegs t)

/-- Method `Table._create_body` (tabla.py lines 139-142):
`rows = [Table._creat_row(elems.values) for _, elems in self.df_str.iterrows()]`
then `"".join(rows + ["\n"])`.  Row `i` holds the `i`-th value of every column
of `df_str` in the frame's column order; `.format` substitution applies
`str()` to each value (`pyStr`). -/
def _create_body (t : Table) : String :=
  String.join ((List.range t.df_str.nrows).map (fun i =>
    creat_row (t.df_str.cols.map (fun c => pyStr (c.vals.getD i .pyNone))) false)) ++ "\n"

/-- The successive pieces `_create_footer` (tabla.py lines 144-160) appends to
`footer`, one list entry per `+=`. -/
def footerSegs (t : Table) : List String :=
  [tabularCloseMarker]
  ++ (if truthyOpt t.notes then [notesSeg t] else [])
  ++ (if truthyOpt t.label then [labelSeg t] else [])
  ++ (if t.adjustwidth then [adjCloseMarker] else [])
  ++ [tableCloseMarker]

/-- Method `Table._create_footer` (tabla.py lines 144-160): the concatenation of the
appended pieces. -/
def _create_footer (t : Table) : String :=
  String.join (footerSegs t)

/-- Method `Table.dumps` (tabla.py lines 83-87):
`"".join([self._create_header(), self._create_body(), self._create_footer()])`. -/
def dumps (t : Table) : String :=
  String.join [t._create_header, t._create_body, t._create_footer]

/-- The argument Python passes to `fh.write`: a `str`, or (as in `_dump`,
which writes `self.dumps` without calling it) a bound method object. -/
inductive WriteArg
  | strArg (s : String)
  | boundMethod (m : String)

/-- A file handle as far as `dump` exercises it: whether it was opened
writable. -/
structure Handle where
  writable : Bool

/-- Python `fh.write(arg)`: fails on a handle opened in read mode
(`io.UnsupportedOperation`), fails when the argument is not a `str`
(`TypeError`), otherwise returns the number of characters written. -/
def fh_write (h : Handle) (arg : WriteArg) : Except String Nat :=
  if h.writable = false then .error "io.UnsupportedOperation: not writable"
  else match arg with
    | .strArg s => .ok s.length
    | .boundMethod m => .error ("TypeError: write() argument must be str, not method " ++ m)

/-- Method `Table._dump` (tabla.py lines 97-99): `return fh.write(self.dumps)` —
the bound method `self.dumps` is passed to `write`, not the string
`self.dumps()`. -/
def _dump (_t : Table) (fh : Handle) : Except String Nat :=
  fh_write fh (.boundMethod "dumps")

/-- The destination accepted by `dump`: a path-like, or an open handle. -/
inductive Dest
  | path (p : String)
  | handle (h : Handle)

/-- Method `Table.dump` (tabla.py lines 89-95).  For a path-like destination it runs
`with open(fileobj, "r") as fh: return self._dump(fh)` — the handle is opened
in READ mode, so it is never writable.  For a handle it runs
`Table._dump(fileobj)`, calling the two-argument method with a single
argument, which raises a `TypeError` before anything is written. -/
def dump (t : Table) (dest : Dest) : Except String Nat :=
  match dest with
  | .path _ => t._dump ⟨false⟩
  | .handle _ => .error "TypeError: _dump() missing 1 required positional argument: fh"

end Table

/-! ## Concrete example inputs used by the claim theorems -/

instance : Inhabited Table :=
  ⟨⟨"", [], true, ⟨[], 0⟩, ⟨[], 0⟩, false, none, none, 0, none, none, 300, "-", true, false⟩⟩

/-- One numeric column named `x`. -/
def exCols1 : List TableColumn := [⟨"x", "", none, "X"⟩]

/-- A one-row frame whose numeric column `x` holds a missing value (`NaN`):
`str(float("nan"))` is `"nan"` and every format of it also renders `"nan"`. -/
def exDf1 : DFrame := ⟨[⟨"x", .numD, [.pyFloat "nan" (fun _ => "nan")]⟩], 1⟩

/-- A table with title `"T"` and caption `"C"` (all other options default). -/
def exT4 : Table :=
  ⟨"t", [], true, ⟨[], 0⟩, ⟨[], 0⟩, false, some "T", some "C", 0, none, none, 300, "-", true, false⟩

/-- A table with notes `"N"`, label `"L"` and `adjustwidth=True`. -/
def exT6 : Table :=
  ⟨"t", [], true, ⟨[], 0⟩, ⟨[], 0⟩, true, none, none, 0, some "L", some "N", 300, "-", true, false⟩

/-- A table with `tiny=True, centering=True, adjustwidth=True`. -/
def exT5 : Table :=
  ⟨"t", [], true, ⟨[], 0⟩, ⟨[], 0⟩, true, none, none, 0, none, none, 300, "-", true, true⟩

/-- A table used to witness that `dumps` reads only the constructed state. -/
def exT8 : Table :=
  ⟨"t8", exCols1, true, exDf1, ⟨[⟨"x", .objD, [.pyObj "-"]⟩], 1⟩, false, none, none, 0,
    none, none, 300, "-", true, false⟩

/-- Descriptors `a`, `b` in that order. -/
def exCols3 : List TableColumn := [⟨"a", "", none, "A"⟩, ⟨"b", "", none, "B"⟩]

/-- A frame whose columns appear in the order `b`, `a` — the reverse of the
descriptor order of `exCols3`. -/
def exDf3 : DFrame := ⟨[⟨"b", .objD, [.pyObj "Bv"]⟩, ⟨"a", .objD, [.pyObj "Av"]⟩], 1⟩

/-- A frame whose columns appear in the descriptor order of `exCols3`. -/
def exDf3w : DFrame := ⟨[⟨"a", .objD, [.pyObj "Av"]⟩, ⟨"b", .objD, [.pyObj "Bv"]⟩], 1⟩

/-- The table built from `exCols3` over the order-matching frame `exDf3w`. -/
def exT3w : Table :=
  (Table.init "t" exCols3 exDf3w 0 300 "-" none none none none true true false false).toOption.getD default

/-- A frame with a single column `x` (used for the missing-descriptor witness). -/
def exDf7 : DFrame := ⟨[⟨"x", .objD, [.pyObj "v"]⟩], 1⟩

/-- An object-dtype column holding Python `None`. -/
def exDCol10 : DCol := ⟨"s", .objD, [.pyNone]⟩

/-- The descriptor for `exDCol10`. -/
def exCol10 : TableColumn := ⟨"s", "", none, "S"⟩

/-! ## Helper lemmas -/

/-- Two strings differ when they differ at a character position within a
known prefix of the first. -/
theorem append_left_ne (p x q : String) (i : Nat) (hi : i < p.data.length)
    (hne : p.data[i]? ≠ q.data[i]?) : p ++ x ≠ q := by
  intro he
  apply hne
  have h1 : (p ++ x).data[i]? = q.data[i]? := by rw [he]
  rwa [String.data_append, List.getElem?_append_left hi] at h1

/-- Two strings differ when they differ at a character position (counted from
the end) within a known suffix of the first. -/
theorem append_right_ne (x p q : String) (i : Nat) (hi : i < p.data.length)
    (hne : p.data.reverse[i]? ≠ q.data.reverse[i]?) : x ++ p ≠ q := by
  intro he
  apply hne
  have h1 : (x ++ p).data.reverse[i]? = q.data.reverse[i]? := by rw [he]
  rw [String.data_append, List.reverse_append] at h1
  rwa [List.getElem?_append_left (by simpa using hi)] at h1

/-- A rendered row never coincides with a marker string that does not end in
the row terminator (compare the last characters). -/
theorem creat_row_ne (elems : List String) (b : Bool) (q : String) (i : Nat)
    (hi : i < EOL.data.length) (hne : EOL.data.reverse[i]? ≠ q.data.reverse[i]?) :
    Table.creat_row elems b ≠ q :=
  append_right_ne _ EOL q i hi hne

/-! ## C9 — empty row rendering -/

/-- The claim of C9 as stated is false: on a zero-length cell sequence,
`_creat_row` does not produce just the row terminator `EOL`; it prepends the
`" ".join` separator space, for both `bold` values. -/
theorem creat_row_empty_counterexample :
    Table.creat_row [] true ≠ EOL ∧ Table.creat_row [] false ≠ EOL := by
  constructor <;> decide

/-- C9 (amended): the row-rendering operation applied to a zero-length cell
sequence does not crash (it is total) and produces a single space followed by
the row terminator (the row-end token and a line break), for both `bold=True`
and `bold=False`. -/
theorem creat_row_empty (bold : Bool) : Table.creat_row [] bold = " " ++ EOL := by
  cases bold <;> rfl

/-! ## C2 — dump never writes the rendered string -/

/-- C2 (code bug): `dump` never writes the `dumps()` string to any
destination.  For a path it opens the file in read mode (`open(fileobj, "r")`)
and passes the bound method `self.dumps` (not `self.dumps()`) to `write`; for
an open handle it calls `Table._dump(fileobj)` with the `fh` argument
missing.  Every call raises before writing anything. -/
theorem dump_never_writes (t : Table) (d : Table.Dest) :
    ∃ e, Table.dump t d = Except.error e := by
  cases d
  · exact ⟨"io.UnsupportedOperation: not writable", rfl⟩
  · exact ⟨"TypeError: _dump() missing 1 required positional argument: fh", rfl⟩

/-! ## C1 — configured placeholder ignored for NaN cells -/

/-- C1 (code bug): a table constructed with `empty_str="N/A"` over a numeric
column containing a missing value renders the cell as the DEFAULT placeholder
`"-"`, not the configured `"N/A"` — `__init__` (line 71) calls
`string_dataframe(df, columns)` without forwarding `empty_str`.  The literal
text `"nan"` indeed never appears. -/
theorem nan_cell_renders_default_placeholder :
    ((Table.init "t" exCols1 exDf1 0 300 "N/A" none none none none true true false
        false).toOption.map
      (fun t => (strContains t.dumps "N/A", strContains t.dumps "-", strContains t.dumps "nan")))
      = some (false, true, false) := by
  rfl

/-! ## C4 — caption marker is never closed -/

/-- C4 (code bug): with title `"T"` and caption `"C"`, the header contains
`\caption{TC` with the title segment preceding the caption segment, but the
closing brace is never emitted — line 121 (`cap_str + "}\n"`) discards its
result — so the caption marker runs straight into `\begin{tabular}`. -/
theorem caption_marker_unclosed :
    Table._create_header exT4 =
      "\\begin\x7btable\x7d[!ht]\n\\centering\n\\caption\x7bTC\\begin\x7btabular\x7d\x7b   \x7d\n\\hline\n \\\\ \n \\\\ \n\\hline\n"
    ∧ strContains (Table._create_header exT4) "\\caption\x7bTC\x7d" = false := by
  exact ⟨rfl, by decide⟩

/-! ## C6 — footer tokens are not the verbatim dialect tokens -/

/-- C6 (code bug): the footer emits its blocks in the claimed fixed order
(close tabular, notes in a flush-left block, label, width-adjustment close,
close table), but the three `\end` markers come from plain (non-f) Python
strings containing `{{`/`}}`, so `\end{{tabular}}`, `\end{{adjustwidth}}` and
`\end{{table}}` are emitted with doubled braces instead of the verbatim
LaTeX tokens. -/
theorem footer_tokens_not_verbatim :
    Table._create_footer exT6 =
      "\\end\x7b\x7btabular\x7d\x7d \n\\begin\x7bflushleft\x7d N \n \\end\x7bflushleft\x7d \n\\label\x7bL\x7d\n\\end\x7b\x7badjustwidth\x7d\x7d \n\\end\x7b\x7btable\x7d\x7d \n"
    ∧ strContains (Table._create_footer exT6) "\\end\x7btabular\x7d" = false
    ∧ strContains (Table._create_footer exT6) "\\end\x7btable\x7d" = false := by
  exact ⟨rfl, by decide, by decide⟩

/-! ## C10 — object-dtype None escapes the placeholder substitution -/

/-- C10: in an object-dtype column, a Python `None` cell is stringified by
`astype(str)` to the literal `"None"`, and the null-substitution post-pass
(line 202) replaces only cells exactly equal to `"nan"`, so the cell renders
as `"None"`, not as the placeholder. -/
theorem object_none_renders_None (column : TableColumn) (c : DCol) (es : String) (i : Nat)
    (hdt : c.dtype = .objD) (hv : c.vals[i]? = some .pyNone) :
    (format_series column c es)[i]? = some (.pyObj "None") := by
  simp only [format_series, hdt]
  simp [List.getElem?_map, hv, pyStr]

/-- Witness for C10 at a concrete input: the column `exDCol10` is
object-dtype, holds `None` at row 0, and formats to the literal `"None"`. -/
theorem object_none_renders_None_witness :
    exDCol10.dtype = .objD ∧ exDCol10.vals[0]? = some .pyNone ∧
      (format_series exCol10 exDCol10 "-")[0]? = some (.pyObj "None") :=
  ⟨rfl, rfl, object_none_renders_None exCol10 exDCol10 "-" 0 rfl rfl⟩

/-! ## C7 — missing descriptor column fails at construction -/

/-- Once a descriptor's name misses the source frame, the conversion loop
errors, whatever the accumulator holds. -/
theorem string_dataframe_go_missing (df : DFrame) (es : String) :
    ∀ (columns : List TableColumn) (acc : DFrame),
      (∃ c ∈ columns, lookupCol df c.name = none) →
      ∃ n, string_dataframe_go df columns es acc = .error (.missingColumn n) := by
  intro columns
  induction columns with
  | nil =>
    intro acc h
    obtain ⟨c, hc, _⟩ := h
    exact absurd hc (List.not_mem_nil c)
  | cons col rest ih =>
    intro acc h
    obtain ⟨c, hc, hnone⟩ := h
    cases hlk : lookupCol df col.name with
    | none => exact ⟨col.name, by simp [string_dataframe_go, hlk]⟩
    | some s =>
      rcases List.mem_cons.mp hc with h' | h'
      · subst h'; rw [hnone] at hlk; cases hlk
      · obtain ⟨n, hn⟩ := ih (setCol acc col.name (format_series col s es)) ⟨c, h', hnone⟩
        exact ⟨n, by simp [string_dataframe_go, hlk, hn]⟩

/-- C7: when some descriptor's name is absent from the dataset's field set,
formatting fails with the missing-column error already at construction time
(`__init__` calls `string_dataframe`, whose `df[column.name]` raises), so no
`Table` value exists and no output can be produced — the failure is not
deferred to render time. -/
theorem missing_column_fails_at_construction
    (nm : String) (columns : List TableColumn) (df : DFrame)
    (erh dp : Int) (es : String) (ti cap lab nts : Option String)
    (hu ce tn aw : Bool)
    (h : ∃ c ∈ columns, lookupCol df c.name = none) :
    ∃ n, Table.init nm columns df erh dp es ti cap lab nts hu ce tn aw
        = .error (.missingColumn n) := by
  obtain ⟨n, hn⟩ := string_dataframe_go_missing df "-" columns df h
  exact ⟨n, by simp [Table.init, Table.string_dataframe, hn, Except.map]⟩

/-- Witness for C7: descriptor `z` is absent from `exDf7`, and construction
fails with the missing-column error. -/
theorem missing_column_fails_at_construction_witness :
    (∃ c ∈ [(⟨"z", "", none, "Z"⟩ : TableColumn)], lookupCol exDf7 c.name = none) ∧
      ∃ n, Table.init "t" [⟨"z", "", none, "Z"⟩] exDf7 0 300 "-" none none none none
          true true false false = .error (.missingColumn n) :=
  ⟨⟨⟨"z", "", none, "Z"⟩, List.mem_singleton.mpr rfl, rfl⟩,
    missing_column_fails_at_construction "t" [⟨"z", "", none, "Z"⟩] exDf7 0 300 "-"
      none none none none true true false false
      ⟨⟨"z", "", none, "Z"⟩, List.mem_singleton.mpr rfl, rfl⟩⟩

/-! ## C8 — dumps is a pure read of the constructed state -/

/-- The constructed state `dumps` reads: every attribute consulted by
`_create_header`, `_create_body` and `_create_footer`.  (`name`, `df`, `dpi`
and `empty_str` are not consulted.) -/
def renderState (t : Table) :
    List TableColumn × DFrame × Bool × Option String × Option String × Int ×
      Option String × Option String × Bool × Bool × Bool :=
  (t.columns, t.df_str, t.adjustwidth, t.title, t.caption, t.extra_row_height,
    t.label, t.notes, t.centering, t.tiny, t.header_units)

/-- C8: `dumps` is a pure function of the state `__init__` constructed — it
mutates nothing and consults no hidden counter — so any two calls that see
the same constructed state (in particular, two successive calls on the same
object) return byte-identical strings. -/
theorem dumps_pure_read (t t' : Table) (h : renderState t = renderState t') :
    Table.dumps t = Table.dumps t' := by
  cases t; cases t'
  simp only [renderState, Prod.mk.injEq] at h
  obtain ⟨h1, h2, h3, h4, h5, h6, h7, h8, h9, h10, h11⟩ := h
  subst h1 h2 h3 h4 h5 h6 h7 h8 h9 h10 h11
  rfl

/-- Witness for C8: two reads of the same constructed table agree. -/
theorem dumps_pure_read_witness :
    renderState exT8 = renderState exT8 ∧ Table.dumps exT8 = Table.dumps exT8 :=
  ⟨rfl, dumps_pure_read exT8 exT8 rfl⟩

/-! ## C3 — column display order of the body -/

/-- Modelled from the spec's words ("Ordering in the descriptor sequence
defines column display order", "exactly the descriptor-named columns"): the
display string of row `i`'s cell for descriptor name `n`, read from the
column of that name. -/
def descCell (dfs : DFrame) (i : Nat) (n : String) : String :=
  match lookupCol dfs n with
  | some c => pyStr (c.vals.getD i .pyNone)
  | none => ""

/-- Modelled from the spec's words: the body rendered with the cells of each
row taken in descriptor order, from exactly the descriptor-named columns. -/
def bodyByDescriptors (t : Table) : String :=
  String.join ((List.range t.df_str.nrows).map (fun i =>
    Table.creat_row (t.columns.map (fun col => descCell t.df_str i col.name)) false)) ++ "\n"

/-- Operation `setCol` preserves the names and order of a frame's columns. -/
theorem setCol_names (d : DFrame) (n : String) (vs : List PyVal) :
    (setCol d n vs).cols.map DCol.name = d.cols.map DCol.name := by
  obtain ⟨cols, nrows⟩ := d
  simp only [setCol, List.map_map]
  induction cols with
  | nil => rfl
  | cons c cs ih =>
    simp only [List.map_cons, Function.comp_apply] at ih ⊢
    by_cases h : c.name = n <;> simp [h, ih]

/-- The conversion loop preserves the names and order of the accumulator's
columns. -/
theorem string_dataframe_go_names (df : DFrame) (es : String) :
    ∀ (columns : List TableColumn) (acc out : DFrame),
      string_dataframe_go df columns es acc = .ok out →
      out.cols.map DCol.name = acc.cols.map DCol.name := by
  intro columns
  induction columns with
  | nil =>
    intro acc out h
    cases h
    rfl
  | cons col rest ih =>
    intro acc out h
    unfold string_dataframe_go at h
    cases hlk : lookupCol df col.name with
    | none => rw [hlk] at h; cases h
    | some c =>
      rw [hlk] at h
      rw [ih _ _ h, setCol_names]

/-- In a frame whose column names are pairwise distinct, looking a column's
own name up returns that column. -/
theorem find_name_self (cs : List DCol) (hnd : (cs.map DCol.name).Nodup) :
    ∀ c ∈ cs, cs.find? (fun x => x.name == c.name) = some c := by
  induction cs with
  | nil => intro c hc; cases hc
  | cons a l ih =>
    intro c hc
    rcases List.mem_cons.mp hc with h' | h'
    · subst h'; simp [List.find?]
    · have hne : (a.name == c.name) = false := by
        rw [beq_eq_false_iff_ne]
        intro he
        exact (List.nodup_cons.mp hnd).1 (he ▸ List.mem_map_of_mem DCol.name h')
      rw [List.find?]
      rw [hne]
      exact ih (List.nodup_cons.mp hnd).2 c h'

/-- C3 is false as stated: over a frame whose columns are stored in the order
`b`, `a` while the descriptors list `a` before `b`, the rendered body row
shows the cells in the frame's order, not the descriptor order. -/
theorem body_descriptor_order_counterexample :
    ((Table.init "t" exCols3 exDf3 0 300 "-" none none none none true true false
        false).toOption.map
      (fun t => t._create_body == bodyByDescriptors t)) = some false := by
  rfl

/-- C3 (amended): the body renders the cells of each row in the order of the
DATASET's columns, over the dataset's full column set; this coincides with
the descriptor order, with exactly the descriptor-named columns, whenever the
dataset's column names are exactly the descriptor names in the same order
(and those names are pairwise distinct). -/
theorem body_in_descriptor_order
    (nm : String) (columns : List TableColumn) (df : DFrame)
    (erh dp : Int) (es : String) (ti cap lab nts : Option String)
    (hu ce tn aw : Bool) (t : Table)
    (hok : Table.init nm columns df erh dp es ti cap lab nts hu ce tn aw = .ok t)
    (hnames : df.cols.map DCol.name = columns.map TableColumn.name)
    (hnodup : (columns.map TableColumn.name).Nodup) :
    t._create_body = bodyByDescriptors t := by
  cases hx : Table.string_dataframe df columns "-" with
  | error e => simp [Table.init, hx, Except.map] at hok
  | ok dfs =>
    simp only [Table.init, hx, Except.map] at hok
    obtain rfl := (Except.ok.injEq ..).mp hok
    have hnm : dfs.cols.map DCol.name = columns.map TableColumn.name := by
      rw [string_dataframe_go_names df "-" columns df dfs hx, hnames]
    have hnd : (dfs.cols.map DCol.name).Nodup := hnm ▸ hnodup
    simp only [Table._create_body, bodyByDescriptors]
    congr 1
    congr 1
    apply List.map_congr_left
    intro i _
    congr 1
    have h1 : columns.map (fun col => descCell dfs i col.name)
        = (columns.map TableColumn.name).map (descCell dfs i) := by
      rw [List.map_map]; rfl
    rw [h1, ← hnm, List.map_map]
    apply List.map_congr_left
    intro c hc
    simp only [Function.comp_apply, descCell, lookupCol, find_name_self dfs.cols hnd c hc]

/-- Witness for C3 (amended) at a concrete input: over the order-matching
frame `exDf3w`, the rendered body equals the descriptor-order rendering. -/
theorem body_in_descriptor_order_witness :
    Table.init "t" exCols3 exDf3w 0 300 "-" none none none none true true false false
        = .ok exT3w ∧
      exT3w._create_body = bodyByDescriptors exT3w :=
  ⟨rfl, body_in_descriptor_order "t" exCols3 exDf3w 0 300 "-" none none none none
    true true false false exT3w rfl (by decide) (by decide)⟩

/-! ## C5 — relative order of the size / centering / width-adjustment markers -/

/-- Is this appended piece one of the three header markers of C5? -/
def isHeaderMarker (s : String) : Bool :=
  s == Table.sizeMarker || s == Table.centeringMarker || s == Table.adjOpenMarker

/-- The header's appended pieces that are C5 header markers, in emission order. -/
def headerMarkerOccs (t : Table) : List String :=
  (Table.headerSegs t).filter isHeaderMarker

/-- Is this appended piece one of the two footer markers of C5? -/
def isFooterMarker (s : String) : Bool :=
  s == Table.adjCloseMarker || s == Table.tableCloseMarker

/-- The footer's appended pieces that are C5 footer markers, in emission order. -/
def footerMarkerOccs (t : Table) : List String :=
  (Table.footerSegs t).filter isFooterMarker

/-- The caption segment is never one of the three header markers. -/
theorem capSeg_ne_marker (t : Table) :
    Table.capSeg t ≠ Table.sizeMarker ∧ Table.capSeg t ≠ Table.centeringMarker ∧
      Table.capSeg t ≠ Table.adjOpenMarker := by
  unfold Table.capSeg
  exact ⟨append_left_ne _ _ _ 1 (by decide) (by decide),
         append_left_ne _ _ _ 2 (by decide) (by decide),
         append_left_ne _ _ _ 1 (by decide) (by decide)⟩

theorem capSeg_not_header_marker (t : Table) : isHeaderMarker (Table.capSeg t) = false := by
  obtain ⟨h1, h2, h3⟩ := capSeg_ne_marker t
  simp [isHeaderMarker, h1, h2, h3]

theorem erhSeg_not_header_marker (t : Table) : isHeaderMarker (Table.erhSeg t) = false := by
  unfold Table.erhSeg
  simp [isHeaderMarker,
    append_left_ne "\\setlength\\extrarowheight\x7b " _ Table.sizeMarker 1 (by decide) (by decide),
    append_left_ne "\\setlength\\extrarowheight\x7b " _ Table.centeringMarker 1 (by decide) (by decide),
    append_left_ne "\\setlength\\extrarowheight\x7b " _ Table.adjOpenMarker 1 (by decide) (by decide)]

theorem tabularSeg_not_header_marker (t : Table) : isHeaderMarker (Table.tabularSeg t) = false := by
  unfold Table.tabularSeg
  simp [isHeaderMarker,
    append_left_ne "\\begin\x7btabular\x7d\x7b  " _ Table.sizeMarker 1 (by decide) (by decide),
    append_left_ne "\\begin\x7btabular\x7d\x7b  " _ Table.centeringMarker 1 (by decide) (by decide),
    append_left_ne "\\begin\x7btabular\x7d\x7b  " _ Table.adjOpenMarker 7 (by decide) (by decide)]

theorem creat_row_not_header_marker (elems : List String) (b : Bool) :
    isHeaderMarker (Table.creat_row elems b) = false := by
  simp [isHeaderMarker,
    creat_row_ne elems b Table.sizeMarker 1 (by decide) (by decide),
    creat_row_ne elems b Table.centeringMarker 1 (by decide) (by decide),
    creat_row_ne elems b Table.adjOpenMarker 1 (by decide) (by decide)]

theorem hline_not_header : isHeaderMarker HLINE = false := by decide

theorem beginTable_not_header : isHeaderMarker "\\begin\x7btable\x7d[!ht]\n" = false := by decide

theorem size_is_header : isHeaderMarker Table.sizeMarker = true := by decide

theorem cent_is_header : isHeaderMarker Table.centeringMarker = true := by decide

theorem adjOpen_is_header : isHeaderMarker Table.adjOpenMarker = true := by decide

/-- The notes segment is never one of the two footer markers. -/
theorem notesSeg_not_footer_marker (t : Table) : isFooterMarker (Table.notesSeg t) = false := by
  unfold Table.notesSeg
  simp [isFooterMarker,
    append_left_ne "\\begin\x7bflushleft\x7d " _ Table.adjCloseMarker 1 (by decide) (by decide),
    append_left_ne "\\begin\x7bflushleft\x7d " _ Table.tableCloseMarker 1 (by decide) (by decide)]

/-- The label segment is never one of the two footer markers. -/
theorem labelSeg_not_footer_marker (t : Table) : isFooterMarker (Table.labelSeg t) = false := by
  unfold Table.labelSeg
  simp [isFooterMarker,
    append_left_ne "\\label\x7b" _ Table.adjCloseMarker 1 (by decide) (by decide),
    append_left_ne "\\label\x7b" _ Table.tableCloseMarker 1 (by decide) (by decide)]

theorem tabularClose_not_footer : isFooterMarker Table.tabularCloseMarker = false := by decide

theorem adjClose_is_footer : isFooterMarker Table.adjCloseMarker = true := by decide

theorem tableClose_is_footer : isFooterMarker Table.tableCloseMarker = true := by decide

/-- C5 is false as stated: with `tiny=True, centering=True, adjustwidth=True`
each marker is emitted exactly once, but the header emits the
width-adjustment open marker FIRST (line 107 precedes lines 110 and 113), so
the claimed relative order (size, centering, width-adjustment) fails. -/
theorem marker_order_counterexample :
    ¬(headerMarkerOccs exT5 = [Table.sizeMarker, Table.centeringMarker, Table.adjOpenMarker] ∧
      footerMarkerOccs exT5 = [Table.adjCloseMarker, Table.tableCloseMarker]) := by
  decide

/-- C5 (amended): with `tiny=True, centering=True, adjustwidth=True`, the
header contains the width-adjustment open marker, the size marker and the
centering marker, each exactly once and in THAT relative order (adjustwidth,
then tiny, then centering — the source emission order), and the footer
contains the width-adjustment close marker exactly once before the final
table-close marker. -/
theorem markers_in_code_order (t : Table)
    (ht : t.tiny = true) (hc : t.centering = true) (ha : t.adjustwidth = true) :
    headerMarkerOccs t = [Table.adjOpenMarker, Table.sizeMarker, Table.centeringMarker] ∧
    footerMarkerOccs t = [Table.adjCloseMarker, Table.tableCloseMarker] := by
  constructor
  · simp only [headerMarkerOccs, Table.headerSegs, ht, hc, ha, if_true,
      List.filter_append, apply_ite (List.filter isHeaderMarker),
      List.filter_cons, List.filter_nil, capSeg_not_header_marker,
      erhSeg_not_header_marker, tabularSeg_not_header_marker, creat_row_not_header_marker,
      hline_not_header, beginTable_not_header, size_is_header, cent_is_header,
      adjOpen_is_header]
    simp
  · simp only [footerMarkerOccs, Table.footerSegs, ha, if_true,
      List.filter_append, apply_ite (List.filter isFooterMarker),
      List.filter_cons, List.filter_nil, notesSeg_not_footer_marker,
      labelSeg_not_footer_marker, tabularClose_not_footer, adjClose_is_footer,
      tableClose_is_footer]
    simp

/-- Witness for C5 (amended) at a concrete table with all three flags set. -/
theorem markers_in_code_order_witness :
    exT5.tiny = true ∧ exT5.centering = true ∧ exT5.adjustwidth = true ∧
      (headerMarkerOccs exT5 = [Table.adjOpenMarker, Table.sizeMarker, Table.centeringMarker] ∧
        footerMarkerOccs exT5 = [Table.adjCloseMarker, Table.tableCloseMarker]) :=
  ⟨rfl, rfl, rfl, markers_in_code_order exT5 rfl rfl rfl⟩

/-- Witness for C2 at a concrete destination: dumping `exT4` to a path fails
(nothing is ever written). -/
theorem dump_never_writes_witness :
    ∃ e, Table.dump exT4 (Table.Dest.path "out.tex") = Except.error e :=
  dump_never_writes exT4 (Table.Dest.path "out.tex")

/-- Witness for C9 (amended) at a concrete `bold` value. -/
theorem creat_row_empty_witness : Table.creat_row [] true = " " ++ EOL :=
  creat_row_empty true
